import Mathlib

/-!
Shallow embedding of `kbdmshook` (src/src/lib.rs), a Windows low-level
keyboard/mouse hook adapter.

The four process-wide `RwLock` slots (`MOUSE_HOOK`, `KEYBOARD_HOOK`,
`CALLBACK`, `EXIT`) are modelled as a `Registry` record; lock poisoning is
modelled separately as a `Locks` record of booleans (a Rust `RwLock` read or
write returns `Err` exactly when the lock is poisoned).  Opaque `HHOOK`
handles and callback function pointers are modelled as `Nat` identifiers.
The OS calls `SetWindowsHookExW` (fallible), `UnhookWindowsHookEx` and
`CallNextHookEx` are modelled through an oracle / through recording which
calls were made with which arguments.  A Rust panic (`.unwrap()` on a
poisoned lock) is modelled explicitly as a `panicked` flag.
-/

/-- `KeyEvent` from the source: `KeyPress(u32)` / `KeyUp(u32)`. -/
inductive KeyEvent where
  | KeyPress (code : Nat)
  | KeyUp (code : Nat)
deriving DecidableEq, Repr

/-- `Point { x: i32, y: i32 }` from the source. -/
structure Point where
  x : Int
  y : Int
deriving DecidableEq, Repr

/-- `MouseEvent` from the source (variant names kept verbatim, including the
source's spelling `MouseLeftBUttonDown`). -/
inductive MouseEvent where
  | MouseMove
  | MouseLeftBUttonDown
  | MouseLeftButtonUp
  | MouseRightButtonDown
  | MouseRightButtonUp
  | MouseWheelRouting
  | MouseMiddleButtonDown
  | MouseMiddleButtonUp
deriving DecidableEq, Repr

/-- The `repr(i32)` discriminant attached to each `MouseEvent` variant in the
source: `MouseMove = 0x200`, `MouseLeftBUttonDown = 0x201`,
`MouseLeftButtonUp = 0x202`, `MouseRightButtonDown = 0x204`,
`MouseRightButtonUp = 0x205`, `MouseWheelRouting = 0x20A`,
`MouseMiddleButtonDown = 0x2b`, `MouseMiddleButtonUp = 0x20c`. -/
def MouseEvent.discriminant : MouseEvent → Int
  | .MouseMove => 0x200
  | .MouseLeftBUttonDown => 0x201
  | .MouseLeftButtonUp => 0x202
  | .MouseRightButtonDown => 0x204
  | .MouseRightButtonUp => 0x205
  | .MouseWheelRouting => 0x20A
  | .MouseMiddleButtonDown => 0x2b
  | .MouseMiddleButtonUp => 0x20c

/-- The derived `TryFromPrimitive` conversion `MouseEvent::try_from(i32)`:
returns the variant whose discriminant equals the input, or fails. -/
def MouseEvent.tryFromPrimitive (n : Int) : Option MouseEvent :=
  if n = 0x200 then some .MouseMove
  else if n = 0x201 then some .MouseLeftBUttonDown
  else if n = 0x202 then some .MouseLeftButtonUp
  else if n = 0x204 then some .MouseRightButtonDown
  else if n = 0x205 then some .MouseRightButtonUp
  else if n = 0x20A then some .MouseWheelRouting
  else if n = 0x2b then some .MouseMiddleButtonDown
  else if n = 0x20c then some .MouseMiddleButtonUp
  else none

/-- `Event` from the source: keyboard or mouse payload. -/
inductive Event where
  | KeyEvent (e : KeyEvent)
  | MouseEvent (e : MouseEvent × Point)
deriving DecidableEq, Repr

/-- `KBDLLHOOKSTRUCT` (the fields present in the Windows struct; the hook
procedure reads only `vkCode`). -/
structure KBDLLHOOKSTRUCT where
  vkCode : Nat
  scanCode : Nat
  flags : Nat
  time : Nat
  dwExtraInfo : Nat
deriving DecidableEq, Repr

/-- `MSLLHOOKSTRUCT` (the fields present in the Windows struct; the hook
procedure reads only `pt`). -/
structure MSLLHOOKSTRUCT where
  pt : Point
  mouseData : Nat
  flags : Nat
  time : Nat
  dwExtraInfo : Nat
deriving DecidableEq, Repr

/-- The four process-wide slots, in source order: `MOUSE_HOOK`,
`KEYBOARD_HOOK`, `CALLBACK` (a function pointer, modelled as an identifier),
`EXIT`. -/
structure Registry where
  mouse_hook : Option Nat
  keyboard_hook : Option Nat
  callback : Option Nat
  exit : Bool
deriving DecidableEq, Repr

/-- Poison state of each of the four `RwLock`s: a read/write returns `Err`
exactly when the corresponding flag is true. -/
structure Locks where
  mouse_hook_poisoned : Bool
  keyboard_hook_poisoned : Bool
  callback_poisoned : Bool
  exit_poisoned : Bool
deriving DecidableEq, Repr

/-- Error values surfaced by the public entry points (`anyhow::Error` built
from a `PoisonError`, or the `windows` crate error from a failed OS call). -/
inductive HookErr where
  | poisoned
  | osError
deriving DecidableEq, Repr

/-- Result of a state-mutating entry point: the resulting registry and the
`Result<()>` value (`none` = `Ok(())`). On error the registry keeps whatever
state the call had reached. -/
structure StepResult where
  st : Registry
  err : Option HookErr
deriving DecidableEq, Repr

/-- Oracle for `SetWindowsHookExW`: the handle the OS returns for each of the
two hook kinds (`none` = the OS rejects the registration). -/
structure OsApi where
  installKeyboard : Option Nat
  installMouse : Option Nat
deriving DecidableEq, Repr

/-- Result of one hook-procedure invocation:
* `invoked`    — `some (cb, ev)` iff the stored callback `cb` was invoked
                 with event `ev`;
* `panicked`   — true iff the procedure panicked (the `.unwrap()` on the
                 hook-handle lock read) before returning;
* `nextCall`   — `some h` iff `CallNextHookEx` was reached, with `h` the
                 stored `Option<HHOOK>` handle passed to it (its result is
                 returned to the OS); `none` iff the panic prevented it. -/
structure HookProcResult where
  invoked : Option (Nat × Event)
  panicked : Bool
  nextCall : Option (Option Nat)
deriving DecidableEq, Repr

/-- `wparam.0 as i32`: reinterpret a `usize` as a 32-bit two's-complement
signed integer. -/
def toI32 (n : Nat) : Int :=
  if n % 4294967296 < 2147483648 then ((n % 4294967296 : Nat) : Int)
  else ((n % 4294967296 : Nat) : Int) - 4294967296

/-- `set_hook_callback(callback)`: `CALLBACK.write()?.replace(callback)`.
Errors (without touching any state) iff the callback lock is poisoned;
otherwise overwrites the stored callback. -/
def set_hook_callback (cb : Nat) (l : Locks) (r : Registry) : StepResult :=
  if l.callback_poisoned then ⟨r, some .poisoned⟩
  else ⟨{ r with callback := some cb }, none⟩

/-- `set_keyboard_hook(f)`: takes the `KEYBOARD_HOOK` write lock (`?` on
poison), calls `SetWindowsHookExW(WH_KEYBOARD_LL, ...)` (`?` on OS failure,
leaving the slot untouched), and on success `replace`s the slot with the new
handle. -/
def set_keyboard_hook (os : OsApi) (l : Locks) (r : Registry) : StepResult :=
  if l.keyboard_hook_poisoned then ⟨r, some .poisoned⟩
  else match os.installKeyboard with
    | none => ⟨r, some .osError⟩
    | some h => ⟨{ r with keyboard_hook := some h }, none⟩

/-- `set_mouse_hook(f)`: same as `set_keyboard_hook` for `MOUSE_HOOK` /
`WH_MOUSE_LL`. -/
def set_mouse_hook (os : OsApi) (l : Locks) (r : Registry) : StepResult :=
  if l.mouse_hook_poisoned then ⟨r, some .poisoned⟩
  else match os.installMouse with
    | none => ⟨r, some .osError⟩
    | some h => ⟨{ r with mouse_hook := some h }, none⟩

/-- `remove_keyboard_hook()`: reads the `KEYBOARD_HOOK` lock (`Err` on
poison); if a handle is stored, calls `UnhookWindowsHookEx` on it (result
discarded).  The slot itself is never modified.  Returns the list of handles
passed to `UnhookWindowsHookEx`. -/
def remove_keyboard_hook (l : Locks) (r : Registry) : Except HookErr (List Nat) :=
  if l.keyboard_hook_poisoned then .error .poisoned
  else match r.keyboard_hook with
    | some h => .ok [h]
    | none => .ok []

/-- `remove_mouse_hook()`: same as `remove_keyboard_hook` for `MOUSE_HOOK`. -/
def remove_mouse_hook (l : Locks) (r : Registry) : Except HookErr (List Nat) :=
  if l.mouse_hook_poisoned then .error .poisoned
  else match r.mouse_hook with
    | some h => .ok [h]
    | none => .ok []

/-- Result of `stop_hook`: resulting registry, the handles passed to
`UnhookWindowsHookEx`, and the returned `Result<()>`. -/
structure StopResult where
  st : Registry
  unhooks : List Nat
  err : Option HookErr
deriving DecidableEq, Repr

/-- `stop_hook()`: sets `EXIT` to true (`?` on poison, before anything else),
then `let _ = remove_keyboard_hook(); let _ = remove_mouse_hook();` — both
attempted, both results discarded — and returns `Ok(())`. -/
def stop_hook (l : Locks) (r : Registry) : StopResult :=
  if l.exit_poisoned then ⟨r, [], some .poisoned⟩
  else
    let r1 := { r with exit := true }
    let uk := match remove_keyboard_hook l r1 with
      | .ok u => u
      | .error _ => []
    let um := match remove_mouse_hook l r1 with
      | .ok u => u
      | .error _ => []
    ⟨r1, uk ++ um, none⟩

/-- `start_hook(hook_mouse, hook_keyboard)`: installs the keyboard hook if
requested (`?`), then the mouse hook if requested (`?`), then sets `EXIT` to
false (`?`), then runs the blocking `GetMessageW` /`TranslateMessage`/
`DispatchMessageW` pump, which reads `EXIT` each iteration and touches no
registry slot; the modelled state is the registry when the call returns.
On an early `?` return the registry keeps whatever the completed steps set. -/
def start_hook (os : OsApi) (l : Locks) (r : Registry)
    (hook_mouse hook_keyboard : Bool) : StepResult :=
  let s1 := if hook_keyboard then set_keyboard_hook os l r else ⟨r, none⟩
  match s1.err with
  | some e => ⟨s1.st, some e⟩
  | none =>
    let s2 := if hook_mouse then set_mouse_hook os l s1.st else ⟨s1.st, none⟩
    match s2.err with
    | some e => ⟨s2.st, some e⟩
    | none =>
      if l.exit_poisoned then ⟨s2.st, some .poisoned⟩
      else ⟨{ s2.st with exit := false }, none⟩

/-- `keyboard_hook_proc(code, wparam, lparam)`:
`if let Ok(callback) = CALLBACK.read()` (poisoned → skip), `if let Some`,
null-pointer check on `lparam` (modelled as `Option KBDLLHOOKSTRUCT`), then a
match on `wparam` over `0x100`/`0x101`/`0x104`/`0x105` invoking the callback
with `KeyPress`/`KeyUp` of `data.vkCode` (all other values: no event);
finally `CallNextHookEx(*KEYBOARD_HOOK.read().unwrap(), code, wparam,
lparam)` — the `.unwrap()` panics iff the `KEYBOARD_HOOK` lock is poisoned. -/
def keyboard_hook_proc (l : Locks) (r : Registry) (code : Int) (wparam : Nat)
    (lparam : Option KBDLLHOOKSTRUCT) : HookProcResult :=
  let invoked : Option (Nat × Event) :=
    if l.callback_poisoned then none
    else match r.callback with
      | none => none
      | some cb =>
        match lparam with
        | none => none
        | some data =>
          if wparam = 0x100 then some (cb, .KeyEvent (.KeyPress data.vkCode))
          else if wparam = 0x101 then some (cb, .KeyEvent (.KeyUp data.vkCode))
          else if wparam = 0x104 then some (cb, .KeyEvent (.KeyPress data.vkCode))
          else if wparam = 0x105 then some (cb, .KeyEvent (.KeyUp data.vkCode))
          else none
  if l.keyboard_hook_poisoned then ⟨invoked, true, none⟩
  else ⟨invoked, false, some r.keyboard_hook⟩

/-- `mouse_hook_proc(code, wparam, lparam)`:
`if let Ok(callback) = CALLBACK.read()` (poisoned → skip), `if let Some`,
null-pointer check on `lparam` (modelled as `Option MSLLHOOKSTRUCT`), then
`if let Ok(mouse_event) = MouseEvent::try_from(wparam.0 as i32)` invoking the
callback with the event and the cursor `Point` (decode failure: no event);
finally `CallNextHookEx(*MOUSE_HOOK.read().unwrap(), code, wparam, lparam)`
— the `.unwrap()` panics iff the `MOUSE_HOOK` lock is poisoned. -/
def mouse_hook_proc (l : Locks) (r : Registry) (code : Int) (wparam : Nat)
    (lparam : Option MSLLHOOKSTRUCT) : HookProcResult :=
  let invoked : Option (Nat × Event) :=
    if l.callback_poisoned then none
    else match r.callback with
      | none => none
      | some cb =>
        match lparam with
        | none => none
        | some data =>
          match MouseEvent.tryFromPrimitive (toI32 wparam) with
          | some me => some (cb, .MouseEvent (me, ⟨data.pt.x, data.pt.y⟩))
          | none => none
  if l.mouse_hook_poisoned then ⟨invoked, true, none⟩
  else ⟨invoked, false, some r.mouse_hook⟩

/-- No lock poisoned (the normal state of the process). -/
def cleanLocks : Locks := ⟨false, false, false, false⟩

/-- The registry at process start, before any public entry point has run:
`Lazy::new` initialises every slot to `None` and `EXIT` to `false`. -/
def initialRegistry : Registry := ⟨none, none, none, false⟩

/-! ## Claim theorems -/

/-- C1 (code bug): the claim says neither hook procedure ever panics when a
lock it touches is poisoned.  The callback-lock read indeed skips invocation
without panicking, but the hook-handle lock read before `CallNextHookEx` is
`.unwrap()`ed: with `KEYBOARD_HOOK` (resp. `MOUSE_HOOK`) poisoned, the
procedure panics and the next-hook call never happens. -/
theorem C1_hook_handle_lock_unwrap_panics :
    (keyboard_hook_proc ⟨false, true, false, false⟩ initialRegistry 0 0x100
      (some ⟨65, 0, 0, 0, 0⟩)).panicked = true ∧
    (mouse_hook_proc ⟨true, false, false, false⟩ initialRegistry 0 0x201
      (some ⟨⟨0, 0⟩, 0, 0, 0, 0⟩)).panicked = true ∧
    (keyboard_hook_proc ⟨false, true, false, false⟩ initialRegistry 0 0x100
      (some ⟨65, 0, 0, 0, 0⟩)).nextCall = none ∧
    (mouse_hook_proc ⟨true, false, false, false⟩ initialRegistry 0 0x201
      (some ⟨⟨0, 0⟩, 0, 0, 0, 0⟩)).nextCall = none ∧
    (keyboard_hook_proc ⟨false, false, true, false⟩
      ⟨none, none, some 1, false⟩ 0 0x100 (some ⟨65, 0, 0, 0, 0⟩)).invoked = none ∧
    (keyboard_hook_proc ⟨false, false, true, false⟩
      ⟨none, none, some 1, false⟩ 0 0x100 (some ⟨65, 0, 0, 0, 0⟩)).panicked = false ∧
    (mouse_hook_proc ⟨false, false, true, false⟩
      ⟨none, none, some 1, false⟩ 0 0x201 (some ⟨⟨0, 0⟩, 0, 0, 0, 0⟩)).invoked = none ∧
    (mouse_hook_proc ⟨false, false, true, false⟩
      ⟨none, none, some 1, false⟩ 0 0x201 (some ⟨⟨0, 0⟩, 0, 0, 0, 0⟩)).panicked = false := by
  decide

/-- C2 (code bug): the claim says every `MouseEvent` discriminant equals the
OS input-message number, in particular middle button down/up = 0x207/0x208.
In the source `MouseMiddleButtonDown = 0x2b` and `MouseMiddleButtonUp =
0x20c`, so decoding the OS codes 0x207/0x208 fails while 0x2b/0x20c decode
to the middle-button variants; the other six variants do match the OS
numbers. -/
theorem C2_middle_button_discriminants_wrong :
    MouseEvent.tryFromPrimitive 0x207 = none ∧
    MouseEvent.tryFromPrimitive 0x208 = none ∧
    MouseEvent.tryFromPrimitive 0x2b = some MouseEvent.MouseMiddleButtonDown ∧
    MouseEvent.tryFromPrimitive 0x20c = some MouseEvent.MouseMiddleButtonUp ∧
    MouseEvent.discriminant MouseEvent.MouseMiddleButtonDown ≠ 0x207 ∧
    MouseEvent.discriminant MouseEvent.MouseMiddleButtonUp ≠ 0x208 ∧
    MouseEvent.tryFromPrimitive 0x200 = some MouseEvent.MouseMove ∧
    MouseEvent.tryFromPrimitive 0x201 = some MouseEvent.MouseLeftBUttonDown ∧
    MouseEvent.tryFromPrimitive 0x202 = some MouseEvent.MouseLeftButtonUp ∧
    MouseEvent.tryFromPrimitive 0x204 = some MouseEvent.MouseRightButtonDown ∧
    MouseEvent.tryFromPrimitive 0x205 = some MouseEvent.MouseRightButtonUp ∧
    MouseEvent.tryFromPrimitive 0x20A = some MouseEvent.MouseWheelRouting := by
  decide

/-- C3 (counterexample): after a successful `stop_hook` the handle slots are
NOT cleared — with a keyboard handle 5 and a mouse handle 6 stored, both are
still stored afterwards. -/
theorem C3_stop_does_not_clear_slots :
    (stop_hook cleanLocks ⟨some 6, some 5, none, false⟩).err = none ∧
    (stop_hook cleanLocks ⟨some 6, some 5, none, false⟩).st.keyboard_hook = some 5 ∧
    (stop_hook cleanLocks ⟨some 6, some 5, none, false⟩).st.mouse_hook = some 6 := by
  decide

/-- C3 (amended): a successful `stop_hook` leaves both handle slots unchanged
(it does not clear them), but each stored handle is passed to
`UnhookWindowsHookEx`, and no stale-handle failure is possible afterwards: a
subsequent `start_hook` has the same success and failure outcome as from the
pre-stop state, and a successful keyboard install overwrites the slot with
the fresh handle. -/
theorem C3_stop_unhooks_without_clearing (l : Locks) (r : Registry)
    (he : l.exit_poisoned = false) :
    (stop_hook l r).err = none ∧
    (stop_hook l r).st.keyboard_hook = r.keyboard_hook ∧
    (stop_hook l r).st.mouse_hook = r.mouse_hook ∧
    (l.keyboard_hook_poisoned = false →
      ∀ h, r.keyboard_hook = some h → h ∈ (stop_hook l r).unhooks) ∧
    (l.mouse_hook_poisoned = false →
      ∀ h, r.mouse_hook = some h → h ∈ (stop_hook l r).unhooks) ∧
    (∀ os hm hk, (start_hook os l (stop_hook l r).st hm hk).err =
      (start_hook os l r hm hk).err) ∧
    (∀ os h2, l.keyboard_hook_poisoned = false → os.installKeyboard = some h2 →
      (start_hook os l (stop_hook l r).st false true).st.keyboard_hook = some h2) := by
  simp only [stop_hook, he, Bool.false_eq_true, if_false, remove_keyboard_hook,
    remove_mouse_hook, start_hook, set_keyboard_hook, set_mouse_hook]
  refine ⟨trivial, trivial, trivial, ?_, ?_, ?_, ?_⟩
  · intro hkp h hh
    simp [hkp, hh]
  · intro hmp h hh
    cases hkk : l.keyboard_hook_poisoned <;> simp [hmp, hh]
  · intro os hm hk
    cases hk <;> cases hm <;>
      simp [set_keyboard_hook, set_mouse_hook] <;>
      cases hkk : l.keyboard_hook_poisoned <;>
      cases hmm : l.mouse_hook_poisoned <;>
      simp [he] <;>
      cases os.installKeyboard <;> cases os.installMouse <;> simp [he]
  · intro os h2 hkp hik
    simp [hkp, hik, he]

/-- C3 (witness): the amended statement instantiated at clean locks and a
registry holding keyboard handle 5 and mouse handle 6. -/
theorem C3_stop_unhooks_without_clearing_witness :
    cleanLocks.exit_poisoned = false ∧
    ((stop_hook cleanLocks ⟨some 6, some 5, some 1, false⟩).err = none ∧
    (stop_hook cleanLocks ⟨some 6, some 5, some 1, false⟩).st.keyboard_hook =
      (Registry.mk (some 6) (some 5) (some 1) false).keyboard_hook ∧
    (stop_hook cleanLocks ⟨some 6, some 5, some 1, false⟩).st.mouse_hook =
      (Registry.mk (some 6) (some 5) (some 1) false).mouse_hook ∧
    (cleanLocks.keyboard_hook_poisoned = false →
      ∀ h, (Registry.mk (some 6) (some 5) (some 1) false).keyboard_hook = some h →
        h ∈ (stop_hook cleanLocks ⟨some 6, some 5, some 1, false⟩).unhooks) ∧
    (cleanLocks.mouse_hook_poisoned = false →
      ∀ h, (Registry.mk (some 6) (some 5) (some 1) false).mouse_hook = some h →
        h ∈ (stop_hook cleanLocks ⟨some 6, some 5, some 1, false⟩).unhooks) ∧
    (∀ os hm hk,
      (start_hook os cleanLocks
        (stop_hook cleanLocks ⟨some 6, some 5, some 1, false⟩).st hm hk).err =
      (start_hook os cleanLocks ⟨some 6, some 5, some 1, false⟩ hm hk).err) ∧
    (∀ os h2, cleanLocks.keyboard_hook_poisoned = false →
      OsApi.installKeyboard os = some h2 →
      (start_hook os cleanLocks
        (stop_hook cleanLocks ⟨some 6, some 5, some 1, false⟩).st
        false true).st.keyboard_hook = some h2)) :=
  ⟨rfl, C3_stop_unhooks_without_clearing cleanLocks ⟨some 6, some 5, some 1, false⟩ rfl⟩

/-- C4 (counterexample): with the OS accepting the keyboard hook (handle 7)
and rejecting the mouse hook, `start_hook(true, true)` from the empty
registry fails — but the keyboard handle slot is left set to 7, not in its
pre-call empty state. -/
theorem C4_failed_start_leaves_keyboard_installed :
    (start_hook ⟨some 7, none⟩ cleanLocks initialRegistry true true).err =
      some HookErr.osError ∧
    (start_hook ⟨some 7, none⟩ cleanLocks initialRegistry true true).st.keyboard_hook =
      some 7 ∧
    initialRegistry.keyboard_hook = none := by
  decide

/-- C4 (amended): a failed `start_hook` performs no rollback: hooks installed
by the steps completed before the failure remain installed.  With keyboard
requested first and succeeding (handle `h7`) and the mouse install failing,
the call errors with the keyboard handle stored; when the very first
requested install fails, the registry is left unchanged. -/
theorem C4_failed_start_no_rollback (os : OsApi) (l : Locks) (r : Registry)
    (h7 : Nat) (hkp : l.keyboard_hook_poisoned = false)
    (hik : os.installKeyboard = some h7) (him : os.installMouse = none) :
    (l.mouse_hook_poisoned = false →
      (start_hook os l r true true).err = some HookErr.osError ∧
      (start_hook os l r true true).st = { r with keyboard_hook := some h7 }) ∧
    (∀ os2 : OsApi, os2.installKeyboard = none →
      (start_hook os2 l r true true).st = r ∧
      (start_hook os2 l r true true).err = some HookErr.osError) := by
  constructor
  · intro hmp
    simp [start_hook, set_keyboard_hook, set_mouse_hook, hkp, hmp, hik, him]
  · intro os2 h2
    simp [start_hook, set_keyboard_hook, hkp, h2]

/-- C4 (witness): the amended statement instantiated at clean locks, the
empty registry, keyboard handle 7 and a failing mouse install. -/
theorem C4_failed_start_no_rollback_witness :
    cleanLocks.keyboard_hook_poisoned = false ∧
    OsApi.installKeyboard ⟨some 7, none⟩ = some 7 ∧
    OsApi.installMouse ⟨some 7, none⟩ = none ∧
    ((cleanLocks.mouse_hook_poisoned = false →
      (start_hook ⟨some 7, none⟩ cleanLocks initialRegistry true true).err =
        some HookErr.osError ∧
      (start_hook ⟨some 7, none⟩ cleanLocks initialRegistry true true).st =
        { initialRegistry with keyboard_hook := some 7 }) ∧
    (∀ os2 : OsApi, os2.installKeyboard = none →
      (start_hook os2 cleanLocks initialRegistry true true).st = initialRegistry ∧
      (start_hook os2 cleanLocks initialRegistry true true).err =
        some HookErr.osError)) :=
  ⟨rfl, rfl, rfl,
    C4_failed_start_no_rollback ⟨some 7, none⟩ cleanLocks initialRegistry 7 rfl rfl rfl⟩

/-- C5: with a registered callback readable (callback lock not poisoned) and
a non-null payload, the keyboard procedure invokes the callback with
`KeyPress(vkCode)` exactly for wparam 0x100 and 0x104, with `KeyUp(vkCode)`
exactly for 0x101 and 0x105, and invokes nothing for every other wparam. -/
theorem C5_keyboard_decode (l : Locks) (r : Registry) (c : Int) (w : Nat)
    (d : KBDLLHOOKSTRUCT) (cb : Nat)
    (hp : l.callback_poisoned = false) (hcb : r.callback = some cb) :
    (keyboard_hook_proc l r c w (some d)).invoked =
      if w = 0x100 ∨ w = 0x104 then
        some (cb, Event.KeyEvent (KeyEvent.KeyPress d.vkCode))
      else if w = 0x101 ∨ w = 0x105 then
        some (cb, Event.KeyEvent (KeyEvent.KeyUp d.vkCode))
      else none := by
  cases hkb : l.keyboard_hook_poisoned <;>
  by_cases h1 : w = 0x100 <;> by_cases h2 : w = 0x101 <;>
  by_cases h3 : w = 0x104 <;> by_cases h4 : w = 0x105 <;>
  simp_all [keyboard_hook_proc]

/-- C5 (witness): wparam 0x100 (key-down) with virtual-key code 65 invokes
the registered callback 1 with `KeyPress 65`. -/
theorem C5_keyboard_decode_witness :
    cleanLocks.callback_poisoned = false ∧
    (Registry.mk none none (some 1) false).callback = some 1 ∧
    (keyboard_hook_proc cleanLocks ⟨none, none, some 1, false⟩ 0 0x100
        (some ⟨65, 0, 0, 0, 0⟩)).invoked =
      (if (0x100 : Nat) = 0x100 ∨ (0x100 : Nat) = 0x104 then
        some (1, Event.KeyEvent (KeyEvent.KeyPress 65))
      else if (0x100 : Nat) = 0x101 ∨ (0x100 : Nat) = 0x105 then
        some (1, Event.KeyEvent (KeyEvent.KeyUp 65))
      else none) :=
  ⟨rfl, rfl, C5_keyboard_decode cleanLocks ⟨none, none, some 1, false⟩ 0 0x100
    ⟨65, 0, 0, 0, 0⟩ 1 rfl rfl⟩

/-- C6: when the mouse raw code is not in the fixed lookup table, the mouse
procedure invokes no callback, and its chain-forwarding behaviour is
identical to that for a recognized code (0x200): in particular, with the
mouse-hook lock not poisoned, `CallNextHookEx` is called with the stored
handle and no panic occurs. -/
theorem C6_mouse_unrecognized_code (l : Locks) (r : Registry) (c : Int)
    (w : Nat) (lp : Option MSLLHOOKSTRUCT)
    (hw : MouseEvent.tryFromPrimitive (toI32 w) = none) :
    (mouse_hook_proc l r c w lp).invoked = none ∧
    (mouse_hook_proc l r c w lp).nextCall = (mouse_hook_proc l r c 0x200 lp).nextCall ∧
    (mouse_hook_proc l r c w lp).panicked = (mouse_hook_proc l r c 0x200 lp).panicked ∧
    (l.mouse_hook_poisoned = false →
      (mouse_hook_proc l r c w lp).nextCall = some r.mouse_hook ∧
      (mouse_hook_proc l r c w lp).panicked = false) := by
  cases hmm : l.mouse_hook_poisoned <;>
  cases hcp : l.callback_poisoned <;>
  cases hc : r.callback <;>
  cases lp <;>
  simp_all [mouse_hook_proc]

/-- C6 (witness): raw code 0x207 is not in the source's table; the procedure
invokes nothing and still forwards to the next hook. -/
theorem C6_mouse_unrecognized_code_witness :
    MouseEvent.tryFromPrimitive (toI32 0x207) = none ∧
    ((mouse_hook_proc cleanLocks ⟨some 6, none, some 1, false⟩ 0 0x207
        (some ⟨⟨3, 4⟩, 0, 0, 0, 0⟩)).invoked = none ∧
    (mouse_hook_proc cleanLocks ⟨some 6, none, some 1, false⟩ 0 0x207
        (some ⟨⟨3, 4⟩, 0, 0, 0, 0⟩)).nextCall =
      (mouse_hook_proc cleanLocks ⟨some 6, none, some 1, false⟩ 0 0x200
        (some ⟨⟨3, 4⟩, 0, 0, 0, 0⟩)).nextCall ∧
    (mouse_hook_proc cleanLocks ⟨some 6, none, some 1, false⟩ 0 0x207
        (some ⟨⟨3, 4⟩, 0, 0, 0, 0⟩)).panicked =
      (mouse_hook_proc cleanLocks ⟨some 6, none, some 1, false⟩ 0 0x200
        (some ⟨⟨3, 4⟩, 0, 0, 0, 0⟩)).panicked ∧
    (cleanLocks.mouse_hook_poisoned = false →
      (mouse_hook_proc cleanLocks ⟨some 6, none, some 1, false⟩ 0 0x207
        (some ⟨⟨3, 4⟩, 0, 0, 0, 0⟩)).nextCall =
          some (Registry.mk (some 6) none (some 1) false).mouse_hook ∧
      (mouse_hook_proc cleanLocks ⟨some 6, none, some 1, false⟩ 0 0x207
        (some ⟨⟨3, 4⟩, 0, 0, 0, 0⟩)).panicked = false)) :=
  ⟨by decide, C6_mouse_unrecognized_code cleanLocks ⟨some 6, none, some 1, false⟩
    0 0x207 (some ⟨⟨3, 4⟩, 0, 0, 0, 0⟩) (by decide)⟩

/-- C7: calling `stop_hook` on the initial (never-started) state succeeds,
passes no handle to `UnhookWindowsHookEx` (uninstalling an absent hook is a
no-op), and only sets the termination flag. -/
theorem C7_stop_before_start :
    (stop_hook cleanLocks initialRegistry).err = none ∧
    (stop_hook cleanLocks initialRegistry).unhooks = [] ∧
    (stop_hook cleanLocks initialRegistry).st =
      { initialRegistry with exit := true } := by
  decide

/-- C8: `stop_hook` is idempotent: from any registry state (with the exit
lock not poisoned) both of two successive calls succeed, the second call
leaves the registry exactly as the first did and attempts the same
uninstalls, and each call sets the termination flag. -/
theorem C8_stop_idempotent (l : Locks) (r : Registry)
    (he : l.exit_poisoned = false) :
    (stop_hook l r).err = none ∧
    (stop_hook l (stop_hook l r).st).err = none ∧
    (stop_hook l (stop_hook l r).st).st = (stop_hook l r).st ∧
    (stop_hook l (stop_hook l r).st).unhooks = (stop_hook l r).unhooks ∧
    (stop_hook l r).st.exit = true := by
  simp [stop_hook, remove_keyboard_hook, remove_mouse_hook, he]

/-- C8 (witness): idempotence at clean locks with both handles stored and a
callback registered. -/
theorem C8_stop_idempotent_witness :
    cleanLocks.exit_poisoned = false ∧
    ((stop_hook cleanLocks ⟨some 6, some 5, some 1, false⟩).err = none ∧
    (stop_hook cleanLocks
      (stop_hook cleanLocks ⟨some 6, some 5, some 1, false⟩).st).err = none ∧
    (stop_hook cleanLocks
      (stop_hook cleanLocks ⟨some 6, some 5, some 1, false⟩).st).st =
      (stop_hook cleanLocks ⟨some 6, some 5, some 1, false⟩).st ∧
    (stop_hook cleanLocks
      (stop_hook cleanLocks ⟨some 6, some 5, some 1, false⟩).st).unhooks =
      (stop_hook cleanLocks ⟨some 6, some 5, some 1, false⟩).unhooks ∧
    (stop_hook cleanLocks ⟨some 6, some 5, some 1, false⟩).st.exit = true) :=
  ⟨rfl, C8_stop_idempotent cleanLocks ⟨some 6, some 5, some 1, false⟩ rfl⟩

/-- C9: a successful `set_hook_callback cb` stores exactly `cb` (last writer
wins: a later call overwrites it), changes neither handle slot nor the
termination flag, and the keyboard procedure subsequently invokes `cb`. -/
theorem C9_set_callback_replaces_only_callback (cb cb2 : Nat) (l : Locks)
    (r : Registry) (c : Int) (d : KBDLLHOOKSTRUCT)
    (hp : l.callback_poisoned = false) :
    (set_hook_callback cb l r).err = none ∧
    (set_hook_callback cb l r).st.callback = some cb ∧
    (set_hook_callback cb l r).st.keyboard_hook = r.keyboard_hook ∧
    (set_hook_callback cb l r).st.mouse_hook = r.mouse_hook ∧
    (set_hook_callback cb l r).st.exit = r.exit ∧
    (set_hook_callback cb2 l (set_hook_callback cb l r).st).st.callback = some cb2 ∧
    (keyboard_hook_proc l (set_hook_callback cb l r).st c 0x100 (some d)).invoked =
      some (cb, Event.KeyEvent (KeyEvent.KeyPress d.vkCode)) := by
  cases hkb : l.keyboard_hook_poisoned <;>
  simp [set_hook_callback, keyboard_hook_proc, hp, hkb]

/-- C9 (witness): replacing the callback with 2 on a registry holding
callback 9 and both handles; the procedure then invokes 2. -/
theorem C9_set_callback_witness :
    cleanLocks.callback_poisoned = false ∧
    ((set_hook_callback 2 cleanLocks ⟨some 6, some 5, some 9, false⟩).err = none ∧
    (set_hook_callback 2 cleanLocks ⟨some 6, some 5, some 9, false⟩).st.callback =
      some 2 ∧
    (set_hook_callback 2 cleanLocks ⟨some 6, some 5, some 9, false⟩).st.keyboard_hook =
      (Registry.mk (some 6) (some 5) (some 9) false).keyboard_hook ∧
    (set_hook_callback 2 cleanLocks ⟨some 6, some 5, some 9, false⟩).st.mouse_hook =
      (Registry.mk (some 6) (some 5) (some 9) false).mouse_hook ∧
    (set_hook_callback 2 cleanLocks ⟨some 6, some 5, some 9, false⟩).st.exit =
      (Registry.mk (some 6) (some 5) (some 9) false).exit ∧
    (set_hook_callback 3 cleanLocks
      (set_hook_callback 2 cleanLocks ⟨some 6, some 5, some 9, false⟩).st).st.callback =
      some 3 ∧
    (keyboard_hook_proc cleanLocks
      (set_hook_callback 2 cleanLocks ⟨some 6, some 5, some 9, false⟩).st 0 0x100
      (some ⟨65, 0, 0, 0, 0⟩)).invoked =
      some (2, Event.KeyEvent (KeyEvent.KeyPress 65))) :=
  ⟨rfl, C9_set_callback_replaces_only_callback 2 3 cleanLocks
    ⟨some 6, some 5, some 9, false⟩ 0 ⟨65, 0, 0, 0, 0⟩ rfl⟩

/-- C10: on a null payload pointer (lparam = none) neither procedure invokes
the callback or dereferences the payload; with the handle locks not
poisoned, each still calls `CallNextHookEx` with its stored handle and
returns that result without panicking. -/
theorem C10_null_lparam_guard (l : Locks) (r : Registry) (c : Int) (w : Nat)
    (hk : l.keyboard_hook_poisoned = false)
    (hm : l.mouse_hook_poisoned = false) :
    (keyboard_hook_proc l r c w none).invoked = none ∧
    (keyboard_hook_proc l r c w none).panicked = false ∧
    (keyboard_hook_proc l r c w none).nextCall = some r.keyboard_hook ∧
    (mouse_hook_proc l r c w none).invoked = none ∧
    (mouse_hook_proc l r c w none).panicked = false ∧
    (mouse_hook_proc l r c w none).nextCall = some r.mouse_hook := by
  cases hcp : l.callback_poisoned <;> cases hc : r.callback <;>
  simp [keyboard_hook_proc, mouse_hook_proc, hk, hm, hcp, hc]

/-- C10 (witness): a null lparam with a registered callback and both hooks
installed: nothing is invoked, and each procedure forwards to the next hook
with its stored handle. -/
theorem C10_null_lparam_guard_witness :
    cleanLocks.keyboard_hook_poisoned = false ∧
    cleanLocks.mouse_hook_poisoned = false ∧
    ((keyboard_hook_proc cleanLocks ⟨some 6, some 5, some 1, false⟩ 0 0x100 none).invoked = none ∧
    (keyboard_hook_proc cleanLocks ⟨some 6, some 5, some 1, false⟩ 0 0x100 none).panicked = false ∧
    (keyboard_hook_proc cleanLocks ⟨some 6, some 5, some 1, false⟩ 0 0x100 none).nextCall =
      some (Registry.mk (some 6) (some 5) (some 1) false).keyboard_hook ∧
    (mouse_hook_proc cleanLocks ⟨some 6, some 5, some 1, false⟩ 0 0x100 none).invoked = none ∧
    (mouse_hook_proc cleanLocks ⟨some 6, some 5, some 1, false⟩ 0 0x100 none).panicked = false ∧
    (mouse_hook_proc cleanLocks ⟨some 6, some 5, some 1, false⟩ 0 0x100 none).nextCall =
      some (Registry.mk (some 6) (some 5) (some 1) false).mouse_hook) :=
  ⟨rfl, rfl, C10_null_lparam_guard cleanLocks ⟨some 6, some 5, some 1, false⟩
    0 0x100 rfl rfl⟩
